import Mathlib

/-!
Shallow embedding of `src/arch/windows/process_info.c`: the process
introspection helpers (PID enumeration, handle liveness guard, the
cross-bitness process-data reader, and the snapshot fallback scanner),
together with theorems about the behaviour the specification describes.

Operating-system calls are modelled by oracle records whose fields give the
outcome of each call site (success flags and returned values); machine
integers are modelled by `Nat`; remote target memory is a byte oracle
`Nat → Nat`.  Unbounded C loops are modelled with an explicit fuel
parameter, instantiated with the bound that makes the loop terminate.
-/

/-- Field kinds requested from `ps__get_process_data`
(`enum ps__process_data_kind` in the C source). -/
inductive PDataKind
  | cmdline
  | cwd
  | environ
deriving DecidableEq, Repr

/-- The three caller/target address-width relationships handled by
`ps__get_process_data`: same bitness, 64-bit caller with WoW64 (32-bit)
target, and 32-bit WoW64 caller with 64-bit target. -/
inductive BitnessMode
  | Native
  | TargetNarrowerThanCaller
  | TargetWiderThanCaller
deriving DecidableEq, Repr

/-- A `UNICODE_STRING`-style descriptor: remote buffer address and byte
length (the C `Length` field counts bytes). -/
structure UniString where
  addr : Nat
  len : Nat
deriving DecidableEq, Repr

/-- The fields of `RTL_USER_PROCESS_PARAMETERS` that the reader consumes:
`CommandLine`, `CurrentDirectoryPath` and the `env` pointer.  One record per
layout (native / 32-bit / 64-bit); the oracle below carries one of each. -/
structure ProcParamsM where
  commandLine : UniString
  currentDirectoryPath : UniString
  envAddr : Nat
deriving DecidableEq, Repr

/-- Oracle for every OS call made by `ps__get_process_data` and its helpers.
Each `...Ok` flag is the success of the corresponding call site; value
fields are what a successful call returns. -/
structure GPDEnv where
  /-- `ps__handle_from_pid` returned a non-NULL handle. -/
  openHandle : Bool
  /-- `NtQueryInformationProcess(ProcessWow64Information)` succeeded (64-bit caller). -/
  wow64InfoOk : Bool
  /-- The `ppeb32` pointer it returned; `some` models non-NULL. -/
  ppeb32 : Option Nat
  /-- `IsWow64Process(GetCurrentProcess(), ...)` succeeded (32-bit caller). -/
  isWow64SelfOk : Bool
  /-- `IsWow64Process(hProcess, ...)` succeeded (32-bit caller). -/
  isWow64TargetOk : Bool
  weAreWow64 : Bool
  theyAreWow64 : Bool
  /-- `ReadProcessMemory` of the 32-bit PEB succeeded. -/
  readPeb32Ok : Bool
  /-- `ReadProcessMemory` of the 32-bit parameters block succeeded. -/
  readParams32Ok : Bool
  params32 : ProcParamsM
  /-- `GetProcAddress` found `NtWow64QueryInformationProcess64`. -/
  ntQIP64Available : Bool
  /-- `NtWow64QueryInformationProcess64(ProcessBasicInformation)` succeeded. -/
  qip64Ok : Bool
  /-- `GetProcAddress` found `NtWow64ReadVirtualMemory64`. -/
  ntRead64Available : Bool
  /-- `NtWow64ReadVirtualMemory64` of the 64-bit PEB succeeded. -/
  readPeb64Ok : Bool
  /-- `NtWow64ReadVirtualMemory64` of the 64-bit parameters block succeeded. -/
  readParams64Ok : Bool
  params64 : ProcParamsM
  /-- `NtQueryInformationProcess(ProcessBasicInformation)` succeeded (native). -/
  qipOk : Bool
  /-- `ReadProcessMemory` of the native PEB succeeded. -/
  readPebOk : Bool
  /-- `ReadProcessMemory` of the native parameters block succeeded. -/
  readParamsOk : Bool
  params : ProcParamsM
  /-- `VirtualQueryEx` succeeded. -/
  vqOk : Bool
  /-- `info.BaseAddress` returned by `VirtualQueryEx`. -/
  regionBase : Nat
  /-- `info.RegionSize` returned by `VirtualQueryEx`. -/
  regionSize : Nat
  /-- `GetProcAddress` found `NtWow64QueryVirtualMemory64`. -/
  ntQVM64Available : Bool
  /-- `NtWow64QueryVirtualMemory64` succeeded. -/
  vq64Ok : Bool
  regionBase64 : Nat
  regionSize64 : Nat
  /-- `calloc(size + 2, 1)` returned non-NULL. -/
  allocOk : Bool
  /-- The final `ReadProcessMemory` / `NtWow64ReadVirtualMemory64` copy succeeded. -/
  finalReadOk : Bool
  /-- Byte contents of the target process's address space. -/
  remoteMem : Nat → Nat

/-- Observable outcome of one `ps__get_process_data` call: the C return
value, what happened to the process handle and the local buffer, which
bitness branch was entered (if any), whether the memory-region probe ran,
and the data written through `pdata` / `psize` (`none` models "output
parameters not touched"). -/
structure GPDOutcome where
  ret : Int
  handleOpened : Bool
  handleClosed : Bool
  mode : Option BitnessMode
  regionProbed : Bool
  bufferAllocated : Bool
  bufferFreed : Bool
  output : Option (List Nat × Nat)
deriving Repr

/-- The `goto error` epilogue of `ps__get_process_data`: close the (non-NULL)
handle, free the buffer if one was allocated, return -1, leave the output
parameters untouched. -/
def gpdError (m : Option BitnessMode) (probed : Bool) (bufAlloc : Bool) : GPDOutcome :=
  { ret := -1, handleOpened := true, handleClosed := true, mode := m,
    regionProbed := probed, bufferAllocated := bufAlloc, bufferFreed := bufAlloc,
    output := none }

/-- The per-kind `switch` bodies of `ps__get_process_data`: select
`(src, size)` from a parameters block.  For `KIND_ENVIRON` only the address
is taken and `size` keeps its initial value 0. -/
def gpdKindDescr (p : ProcParamsM) (kind : PDataKind) : Nat × Nat :=
  match kind with
  | .cmdline => (p.commandLine.addr, p.commandLine.len)
  | .cwd => (p.currentDirectoryPath.addr, p.currentDirectoryPath.len)
  | .environ => (p.envAddr, 0)

/-- The parameters block used by each bitness branch of
`ps__get_process_data`. -/
def paramsFor (e : GPDEnv) : BitnessMode → ProcParamsM
  | .Native => e.params
  | .TargetNarrowerThanCaller => e.params32
  | .TargetWiderThanCaller => e.params64

/-- The same-bitness block of `ps__get_process_data`:
`NtQueryInformationProcess(ProcessBasicInformation)`, read the PEB, read the
parameters block, then the per-kind `switch`. -/
def gpdNativeWalk (e : GPDEnv) (kind : PDataKind) : Option (Nat × Nat) :=
  if !e.qipOk then none
  else if !e.readPebOk then none
  else if !e.readParamsOk then none
  else some (gpdKindDescr e.params kind)

/-- The structure walk of `ps__get_process_data` up to the point where
`src` and `size` are set: bitness-branch selection followed by the
mode-specific PEB / parameters reads.  `none` models failure of the flag
queries before any branch is entered; `some (m, none)` models entering
branch `m` and failing inside it; `some (m, some (src, size))` is success. -/
def gpdWalk (callerWide : Bool) (e : GPDEnv) (kind : PDataKind) :
    Option (BitnessMode × Option (Nat × Nat)) :=
  if callerWide then
    -- 64 bit case: check whether the target runs in WoW64 mode.
    if !e.wow64InfoOk then none
    else
      match e.ppeb32 with
      | some _ =>
        some (.TargetNarrowerThanCaller,
          if !e.readPeb32Ok then none
          else if !e.readParams32Ok then none
          else some (gpdKindDescr e.params32 kind))
      | none => some (.Native, gpdNativeWalk e kind)
  else
    -- 32 bit case: check whether we run in WoW64 mode and the target is 64 bit.
    if !(e.isWow64SelfOk && e.isWow64TargetOk) then none
    else if e.weAreWow64 && !e.theyAreWow64 then
      some (.TargetWiderThanCaller,
        if !e.ntQIP64Available then none
        else if !e.qip64Ok then none
        else if !e.ntRead64Available then none
        else if !e.readPeb64Ok then none
        else if !e.readParams64Ok then none
        else some (gpdKindDescr e.params64 kind))
    else some (.Native, gpdNativeWalk e kind)

/-- Embedding of `ps__get_process_region_size`: `VirtualQueryEx`, then
`RegionSize - (src - BaseAddress)`. -/
def ps__get_process_region_size (e : GPDEnv) (src : Nat) : Option Nat :=
  if !e.vqOk then none
  else some (e.regionSize - (src - e.regionBase))

/-- Embedding of `ps__get_process_region_size64`: lazily resolve
`NtWow64QueryVirtualMemory64` (error if missing), query, then
`RegionSize - (src64 - BaseAddress)`. -/
def ps__get_process_region_size64 (e : GPDEnv) (src64 : Nat) : Option Nat :=
  if !e.ntQVM64Available then none
  else if !e.vq64Ok then none
  else some (e.regionSize64 - (src64 - e.regionBase64))

/-- The `if (kind == KIND_ENVIRON)` region probe of `ps__get_process_data`:
only the environment kind resolves its length by a region query; the other
kinds keep the `size` taken from the parameters block. -/
def gpdResolveSize (callerWide : Bool) (e : GPDEnv) (kind : PDataKind)
    (src : Nat) (size : Nat) : Option Nat :=
  if kind == PDataKind.environ then
    if !callerWide && (e.weAreWow64 && !e.theyAreWow64) then
      ps__get_process_region_size64 e src
    else
      ps__get_process_region_size e src
  else some size

/-- Embedding of `ps__get_process_data`.  `callerWide` models the
compile-time `_WIN64` split.  The returned buffer is the
`calloc(size + 2, 1)` zero-initialised block whose first `size` bytes were
overwritten by the remote read. -/
def ps__get_process_data (callerWide : Bool) (e : GPDEnv) (kind : PDataKind) :
    GPDOutcome :=
  if !e.openHandle then
    { ret := -1, handleOpened := false, handleClosed := false, mode := none,
      regionProbed := false, bufferAllocated := false, bufferFreed := false,
      output := none }
  else
    match gpdWalk callerWide e kind with
    | none => gpdError none false false
    | some (m, none) => gpdError (some m) false false
    | some (m, some (src, size0)) =>
      match gpdResolveSize callerWide e kind src size0 with
      | none => gpdError (some m) (kind == PDataKind.environ) false
      | some size =>
        if !e.allocOk then gpdError (some m) (kind == PDataKind.environ) false
        else if !e.finalReadOk then
          gpdError (some m) (kind == PDataKind.environ) true
        else
          { ret := 0, handleOpened := true, handleClosed := true, mode := some m,
            regionProbed := (kind == PDataKind.environ), bufferAllocated := true,
            bufferFreed := false,
            output := some
              ((List.range size).map (fun i => e.remoteMem (src + i)) ++ [0, 0],
               size) }

/-- Modelled from the spec: the section 4.3 mode-selection table, written
from the spec's words for comparison with the code's branch structure.  A
wide caller selects `TargetNarrowerThanCaller` exactly when the target has
a narrow sub-process block; a narrow caller selects `TargetWiderThanCaller`
exactly when it is itself under the compatibility layer and the target is
not; every other combination is `Native`. -/
def specBitnessMode (callerWide targetHasNarrowSubBlock weAreWow64 theyAreWow64 : Bool) :
    BitnessMode :=
  if callerWide then
    if targetHasNarrowSubBlock then .TargetNarrowerThanCaller else .Native
  else
    if weAreWow64 && !theyAreWow64 then .TargetWiderThanCaller else .Native

/-- Error kinds reported through the `ps__...` error-setting helpers. -/
inductive PsErr
  | AccessDenied
  | NoSuchProcess
  | WindowsError
  | AssertionError
  | NoMemory
deriving DecidableEq, Repr

/-- Oracle for the handle lifecycle guard (`ps__is_phandle_running` and its
callers).  `pidInPids` is the (deterministic, for one call) result of
`ps__pid_in_pids`: 1 found, 0 not found, -1 enumeration error. -/
structure GuardEnv where
  /-- `OpenProcess` result: `some h` for a non-NULL handle. -/
  openResult : Option Nat
  /-- `GetLastError() == ERROR_INVALID_PARAMETER` after a NULL open. -/
  lastErrorInvalidParam : Bool
  /-- `GetExitCodeProcess` succeeded. -/
  getExitCodeOk : Bool
  exitCode : Nat
  pidInPids : Int
  /-- The `PS__TESTING` compile/run-time flag. -/
  testingMode : Bool
deriving Repr

/-- The `STILL_ACTIVE` sentinel exit code. -/
def STILL_ACTIVE : Nat := 259

/-- Embedding of `ps__assert_pid_exists`: in testing mode, fail (return 0 in
C, `false` here) when `ps__pid_in_pids` says the pid does not exist. -/
def ps__assert_pid_exists (env : GuardEnv) : Bool :=
  if env.testingMode && (env.pidInPids == 0) then false else true

/-- Embedding of `ps__assert_pid_not_exists`: in testing mode, fail when
`ps__pid_in_pids` says the pid still exists. -/
def ps__assert_pid_not_exists (env : GuardEnv) : Bool :=
  if env.testingMode && (env.pidInPids == 1) then false else true

/-- Result of `ps__is_phandle_running`: the C return value (1 running, 0 not
running, -1 WindowsError, -2 AssertionError) and whether the function itself
called `CloseHandle`. -/
structure PhRunResult where
  ret : Int
  handleClosed : Bool
deriving DecidableEq, Repr

/-- Embedding of `ps__is_phandle_running`. -/
def ps__is_phandle_running (hProcess : Option Nat) (env : GuardEnv) : PhRunResult :=
  match hProcess with
  | none =>
    if env.lastErrorInvalidParam then
      if !ps__assert_pid_not_exists env then { ret := -2, handleClosed := false }
      else { ret := 0, handleClosed := false }
    else { ret := -1, handleClosed := false }
  | some _ =>
    if env.getExitCodeOk then
      if env.exitCode = STILL_ACTIVE then
        if !ps__assert_pid_exists env then { ret := -2, handleClosed := true }
        else { ret := 1, handleClosed := false }
      else
        -- We can't be sure so we look into pids.
        if env.pidInPids = 1 then { ret := 1, handleClosed := false }
        else { ret := 0, handleClosed := true }
    else
      if !ps__assert_pid_not_exists env then { ret := -2, handleClosed := true }
      else { ret := -1, handleClosed := true }

/-- Result of `ps__check_phandle` / `ps__handle_from_pid_waccess`: the
returned handle (NULL modelled as `none`), the error kind set on failure,
whether the guard closed the handle, and whether `OpenProcess` was reached
at all. -/
structure CheckResult where
  handle : Option Nat
  errorSet : Option PsErr
  handleClosed : Bool
deriving DecidableEq, Repr

/-- Embedding of `ps__check_phandle`: translate the `ps__is_phandle_running`
return code into handle-or-error.  At -2 the error text was already set by
the assert helper; we record it as `AssertionError`. -/
def ps__check_phandle (hProcess : Option Nat) (env : GuardEnv) : CheckResult :=
  let r := ps__is_phandle_running hProcess env
  if r.ret = 1 then
    { handle := hProcess, errorSet := none, handleClosed := r.handleClosed }
  else if r.ret = 0 then
    { handle := none, errorSet := some .NoSuchProcess, handleClosed := r.handleClosed }
  else if r.ret = -1 then
    { handle := none, errorSet := some .WindowsError, handleClosed := r.handleClosed }
  else
    { handle := none, errorSet := some .AssertionError, handleClosed := r.handleClosed }

/-- Result of `ps__handle_from_pid_waccess`, with the extra observation of
whether `OpenProcess` was attempted. -/
structure HandleFromPidResult where
  handle : Option Nat
  errorSet : Option PsErr
  openAttempted : Bool
deriving DecidableEq, Repr

/-- Embedding of `ps__handle_from_pid_waccess`: pid 0 is rejected with
`ps__access_denied` before any `OpenProcess` call; otherwise open and run
the liveness check. -/
def ps__handle_from_pid_waccess (pid : Nat) (dwDesiredAccess : Nat) (env : GuardEnv) :
    HandleFromPidResult :=
  if pid = 0 then
    -- otherwise we'd get NoSuchProcess
    { handle := none, errorSet := some .AccessDenied, openAttempted := false }
  else
    let c := ps__check_phandle env.openResult env
    { handle := c.handle, errorSet := c.errorSet, openAttempted := true }

/-- Oracle for `ps__get_pids`: the number of live process identifiers the
simulated `EnumProcesses` knows about, and per-capacity success flags for
`malloc` and `EnumProcesses` (indexed by the slot capacity of the attempt). -/
structure PidsEnv where
  trueCount : Nat
  allocOk : Nat → Bool
  enumOk : Nat → Bool

/-- One simulated `EnumProcesses` call: fills at most the buffer's capacity
with live pids, so the returned byte size is `4 * min trueCount capacity` —
it reports a full buffer exactly when the true count reaches the capacity. -/
def enumReturnBytes (trueCount capSlots : Nat) : Nat :=
  4 * min trueCount capSlots

/-- The grow-and-retry loop body of `ps__get_pids`, with fuel for the
unbounded C `do`/`while`.  Returns `some (capacitySlots, count)` on loop
exit; `sizeof(DWORD)` is 4. -/
def ps__get_pids_go (env : PidsEnv) : Nat → Nat → Option (Nat × Nat)
  | 0, _ => none
  | fuel + 1, sz =>
    let sz' := sz + 1024
    if !env.allocOk sz' then none
    else if !env.enumOk sz' then none
    else
      let retBytes := enumReturnBytes env.trueCount sz'
      if retBytes = sz' * 4 then ps__get_pids_go env fuel sz'
      else some (sz', retBytes / 4)

/-- Embedding of `ps__get_pids`: start from capacity 0, grow by 1024 slots
per iteration; the fuel `trueCount / 1024 + 1` is the number of iterations
after which the loop must have exited (live-process count is bounded). -/
def ps__get_pids (env : PidsEnv) : Option (Nat × Nat) :=
  ps__get_pids_go env (env.trueCount / 1024 + 1) 0

/-- One `SYSTEM_PROCESS_INFORMATION` record as the scanner reads it: the
next-entry byte offset and the embedded pid. -/
structure SPRecord where
  nextEntryOffset : Nat
  uniqueProcessId : Nat
deriving DecidableEq, Repr

/-- The record-chain walk of `ps__get_proc_info` (the `do`/`while` over
`PS__NEXT_PROCESS`), with fuel for the unbounded loop: at each position
compare the embedded pid, stop at next-offset 0, otherwise advance by the
offset.  Returns the byte position of the matching record. -/
def ps__find_in_snapshot (buf : Nat → SPRecord) (pid : Nat) :
    Nat → Nat → Option Nat
  | 0, _ => none
  | fuel + 1, pos =>
    if (buf pos).uniqueProcessId = pid then some pos
    else if (buf pos).nextEntryOffset = 0 then none
    else ps__find_in_snapshot buf pid fuel (pos + (buf pos).nextEntryOffset)

/-- Observable outcome of the scan phase of `ps__get_proc_info`: the C
return value (1 success, 0 failure), the `*retProcess` record position,
whether the snapshot buffer was freed, and the error set. -/
structure ProcInfoResult where
  ret : Int
  retProcess : Option Nat
  bufferFreed : Bool
  errorSet : Option PsErr
deriving DecidableEq, Repr

/-- Embedding of the scan phase of `ps__get_proc_info` (after the snapshot
query loop has filled `buf`): on a pid match return 1 and hand the buffer to
the caller; on chain exhaustion set `NoSuchProcess`, free the buffer and
return 0. -/
def ps__get_proc_info (buf : Nat → SPRecord) (pid : Nat) (fuel : Nat) :
    ProcInfoResult :=
  match ps__find_in_snapshot buf pid fuel 0 with
  | some pos =>
    { ret := 1, retProcess := some pos, bufferFreed := false, errorSet := none }
  | none =>
    { ret := 0, retProcess := none, bufferFreed := true,
      errorSet := some .NoSuchProcess }

/-- A list of byte positions is a well-formed snapshot record chain in `buf`:
each position links to the next by its (non-zero) next-entry offset and the
last record has offset 0. -/
def isChain (buf : Nat → SPRecord) : List Nat → Bool
  | [] => false
  | [p] => (buf p).nextEntryOffset == 0
  | p :: q :: rest =>
    ((buf p).nextEntryOffset != 0) && (q == p + (buf p).nextEntryOffset) &&
      isChain buf (q :: rest)

/-- Reassemble the `WCHAR` values of a byte buffer (little endian, two bytes
per `WCHAR`), modelling that `ps__get_cwd` reinterprets the byte buffer
returned by `ps__get_process_data` as a wide string. -/
def bytesToWChars : List Nat → List Nat
  | b0 :: b1 :: rest => (b0 + 256 * b1) :: bytesToWChars rest
  | _ => []

/-- The `wcslen`-delimited contents of a wide-character buffer: the
characters before the first NUL. -/
def wcslenTake (ws : List Nat) : List Nat :=
  ws.takeWhile (fun c => c != 0)

/-- The trailing-separator trim of `ps__get_cwd`:
`if (data[size - 1] == L'\\') data[size - 1] = L'\0'`, i.e. drop the last
character of the wide string when it is a backslash (92).  (For an empty
string the C code would index before the buffer; the model leaves it
unchanged.) -/
def ps__cwd_trim (s : List Nat) : List Nat :=
  if s.getLast? = some 92 then s.dropLast else s

/-- Embedding of `ps__get_cwd`: fetch the `KIND_CWD` data, take the
`wcslen` prefix of the wide-character reinterpretation, trim one trailing
backslash, and return the resulting text (`none` models `R_NilValue`). -/
def ps__get_cwd (callerWide : Bool) (e : GPDEnv) : Option (List Nat) :=
  match (ps__get_process_data callerWide e PDataKind.cwd).output with
  | none => none
  | some (buf, _) => some (ps__cwd_trim (wcslenTake (bytesToWChars buf)))

/-- A parameters block with distinct, recognisable descriptor values, used
by the concrete evaluation theorems. -/
def okParams : ProcParamsM :=
  { commandLine := ⟨100, 4⟩, currentDirectoryPath := ⟨200, 6⟩, envAddr := 300 }

/-- A fully successful oracle for `ps__get_process_data` (every call
succeeds; the target memory holds byte `a % 256` at address `a`). -/
def testEnv : GPDEnv :=
  { openHandle := true, wow64InfoOk := true, ppeb32 := some 4096,
    isWow64SelfOk := true, isWow64TargetOk := true,
    weAreWow64 := false, theyAreWow64 := false,
    readPeb32Ok := true, readParams32Ok := true, params32 := okParams,
    ntQIP64Available := true, qip64Ok := true, ntRead64Available := true,
    readPeb64Ok := true, readParams64Ok := true, params64 := okParams,
    qipOk := true, readPebOk := true, readParamsOk := true, params := okParams,
    vqOk := true, regionBase := 256, regionSize := 64,
    ntQVM64Available := true, vq64Ok := true,
    regionBase64 := 512, regionSize64 := 128,
    allocOk := true, finalReadOk := true,
    remoteMem := fun a => a % 256 }

/-- The successful oracle with the final remote copy failing. -/
def testEnvFail : GPDEnv :=
  { testEnv with finalReadOk := false }

/-- An oracle whose native current-directory string is the wide text `C:\`
(bytes `67 0 58 0 92 0` at addresses 200..205), read through the native
branch (`ppeb32` NULL). -/
def cwdEnv : GPDEnv :=
  { testEnv with
    ppeb32 := none,
    remoteMem := fun a =>
      if a = 200 then 67 else if a = 202 then 58 else if a = 204 then 92
      else 0 }

/-- Claim theorem helper: the mode recorded by `ps__get_process_data` is the
first component of the structure walk whenever the handle was opened. -/
theorem gpd_mode_eq_walk (cw : Bool) (e : GPDEnv) (kind : PDataKind)
    (h : e.openHandle = true) :
    (ps__get_process_data cw e kind).mode = (gpdWalk cw e kind).map Prod.fst := by
  unfold ps__get_process_data
  rw [h]
  simp only [Bool.not_true, Bool.false_eq_true, if_false]
  rcases hw : gpdWalk cw e kind with _ | ⟨m, _ | ⟨src, size0⟩⟩
  · simp [gpdError]
  · simp [gpdError]
  · rcases hr : gpdResolveSize cw e kind src size0 with _ | size
    · simp [gpdError, hr]
    · by_cases ha : e.allocOk <;> by_cases hf : e.finalReadOk <;>
        simp [gpdError, hr, ha, hf]

/-- Helper: under successful flag queries, the branch entered by the walk is
the one given by the section 4.3 table. -/
theorem gpdWalk_mode (cw : Bool) (e : GPDEnv) (kind : PDataKind)
    (hw : cw = true → e.wow64InfoOk = true)
    (hn : cw = false → e.isWow64SelfOk = true ∧ e.isWow64TargetOk = true) :
    (gpdWalk cw e kind).map Prod.fst =
      some (specBitnessMode cw e.ppeb32.isSome e.weAreWow64 e.theyAreWow64) := by
  cases cw with
  | true =>
    have h1 := hw rfl
    unfold gpdWalk specBitnessMode
    rcases hp : e.ppeb32 with _ | p <;> simp [h1, hp]
  | false =>
    obtain ⟨h1, h2⟩ := hn rfl
    unfold gpdWalk specBitnessMode
    by_cases hwe : e.weAreWow64 <;> by_cases hth : e.theyAreWow64 <;>
      simp [h1, h2, hwe, hth]

/-- C1: the bitness mode selected by `ps__get_process_data` is a pure
function of the caller address-width, the target's narrow sub-process block
presence (`ppeb32`), and the caller/target compatibility-layer flags, and
it equals the spec's section 4.3 table on every combination: a wide caller
selects `TargetNarrowerThanCaller` exactly when `ppeb32` is non-NULL and
`Native` otherwise; a narrow caller selects `TargetWiderThanCaller` exactly
when `weAreWow64 && !theyAreWow64` and `Native` otherwise. -/
theorem c1_bitness_mode_matches_spec (cw : Bool) (e : GPDEnv) (kind : PDataKind)
    (hopen : e.openHandle = true)
    (hw : cw = true → e.wow64InfoOk = true)
    (hn : cw = false → e.isWow64SelfOk = true ∧ e.isWow64TargetOk = true) :
    (ps__get_process_data cw e kind).mode =
      some (specBitnessMode cw e.ppeb32.isSome e.weAreWow64 e.theyAreWow64) := by
  rw [gpd_mode_eq_walk cw e kind hopen, gpdWalk_mode cw e kind hw hn]

/-- Concrete evaluation of C1: with every query succeeding and a non-NULL
`ppeb32`, a wide caller records `TargetNarrowerThanCaller`. -/
theorem c1_bitness_mode_matches_spec_witness :
    (ps__get_process_data true testEnv PDataKind.cmdline).mode =
      some (specBitnessMode true testEnv.ppeb32.isSome testEnv.weAreWow64
        testEnv.theyAreWow64) :=
  c1_bitness_mode_matches_spec true testEnv PDataKind.cmdline rfl
    (fun _ => rfl) (fun h => Bool.noConfusion h)

/-- C6: `ps__handle_from_pid_waccess` with pid 0 reports `AccessDenied` and
returns NULL for every access mask and every oracle, without attempting an
`OpenProcess`, and never reports `NoSuchProcess`. -/
theorem c6_pid_zero_access_denied (access : Nat) (env : GuardEnv) :
    (ps__handle_from_pid_waccess 0 access env).errorSet = some PsErr.AccessDenied ∧
    (ps__handle_from_pid_waccess 0 access env).handle = none ∧
    (ps__handle_from_pid_waccess 0 access env).openAttempted = false ∧
    (ps__handle_from_pid_waccess 0 access env).errorSet ≠ some PsErr.NoSuchProcess := by
  unfold ps__handle_from_pid_waccess
  simp

/-- C2: for every oracle and field kind, `ps__get_process_data` returns
either 0 or -1; whenever it returns -1 the output parameters are untouched,
any opened handle has been closed and any allocated buffer has been freed;
and the output parameters are written exactly on the return-0 path. -/
theorem c2_failure_atomicity (cw : Bool) (e : GPDEnv) (kind : PDataKind) :
    ((ps__get_process_data cw e kind).ret = 0 ∨
      (ps__get_process_data cw e kind).ret = -1) ∧
    ((ps__get_process_data cw e kind).ret = -1 →
      (ps__get_process_data cw e kind).output = none ∧
      ((ps__get_process_data cw e kind).handleOpened = true →
        (ps__get_process_data cw e kind).handleClosed = true) ∧
      ((ps__get_process_data cw e kind).bufferAllocated = true →
        (ps__get_process_data cw e kind).bufferFreed = true)) ∧
    ((ps__get_process_data cw e kind).ret = 0 ↔
      (ps__get_process_data cw e kind).output.isSome) := by
  unfold ps__get_process_data
  by_cases ho : e.openHandle
  · simp only [ho, Bool.not_true, Bool.false_eq_true, if_false]
    rcases hw : gpdWalk cw e kind with _ | ⟨m, _ | ⟨src, size0⟩⟩
    · simp [gpdError]
    · simp [gpdError]
    · rcases hr : gpdResolveSize cw e kind src size0 with _ | size
      · simp [gpdError, hr]
      · by_cases ha : e.allocOk <;> by_cases hf : e.finalReadOk <;>
          simp [gpdError, hr, ha, hf]
  · simp only [Bool.not_eq_true] at ho
    simp [ho]

/-- Concrete evaluation of C2 at an oracle whose final remote copy fails. -/
theorem c2_failure_atomicity_witness :
    (((ps__get_process_data true testEnvFail PDataKind.cmdline).ret = 0 ∨
      (ps__get_process_data true testEnvFail PDataKind.cmdline).ret = -1) ∧
    ((ps__get_process_data true testEnvFail PDataKind.cmdline).ret = -1 →
      (ps__get_process_data true testEnvFail PDataKind.cmdline).output = none ∧
      ((ps__get_process_data true testEnvFail PDataKind.cmdline).handleOpened = true →
        (ps__get_process_data true testEnvFail PDataKind.cmdline).handleClosed = true) ∧
      ((ps__get_process_data true testEnvFail PDataKind.cmdline).bufferAllocated = true →
        (ps__get_process_data true testEnvFail PDataKind.cmdline).bufferFreed = true)) ∧
    ((ps__get_process_data true testEnvFail PDataKind.cmdline).ret = 0 ↔
      (ps__get_process_data true testEnvFail PDataKind.cmdline).output.isSome)) :=
  c2_failure_atomicity true testEnvFail PDataKind.cmdline


/-- Helper: inversion of a successful `ps__get_process_data` call.  Writing
the output parameters forces a fully successful path: handle opened,
structure walk succeeded in some branch `m`, size resolution succeeded with
the returned size, allocation and final copy succeeded, and the buffer is
the remote bytes followed by the two zero pad bytes. -/
theorem gpd_success_inv (cw : Bool) (e : GPDEnv) (kind : PDataKind)
    (buf : List Nat) (sz : Nat)
    (h : (ps__get_process_data cw e kind).output = some (buf, sz)) :
    e.openHandle = true ∧
    ∃ m src size0,
      gpdWalk cw e kind = some (m, some (src, size0)) ∧
      gpdResolveSize cw e kind src size0 = some sz ∧
      e.allocOk = true ∧ e.finalReadOk = true ∧
      buf = (List.range sz).map (fun i => e.remoteMem (src + i)) ++ [0, 0] ∧
      (ps__get_process_data cw e kind).mode = some m := by
  unfold ps__get_process_data at h
  by_cases ho : e.openHandle
  case neg =>
    simp only [Bool.not_eq_true] at ho
    simp [ho] at h
  simp only [ho, Bool.not_true, Bool.false_eq_true, if_false] at h
  rcases hw : gpdWalk cw e kind with _ | ⟨m, d⟩
  · rw [hw] at h; simp [gpdError] at h
  rcases d with _ | ⟨src, size0⟩
  · rw [hw] at h; simp [gpdError] at h
  rw [hw] at h
  dsimp only at h
  rcases hr : gpdResolveSize cw e kind src size0 with _ | size
  · rw [hr] at h; simp [gpdError] at h
  rw [hr] at h
  dsimp only at h
  by_cases ha : e.allocOk
  case neg => simp [gpdError, ha] at h
  by_cases hf : e.finalReadOk
  case neg => simp [gpdError, ha, hf] at h
  simp only [ha, hf, Bool.not_true, Bool.false_eq_true, if_false,
    Option.some.injEq, Prod.mk.injEq] at h
  obtain ⟨hbuf, hsz⟩ := h
  subst hsz
  refine ⟨ho, m, src, size0, rfl, hr, ha, hf, hbuf.symm, ?_⟩
  rw [gpd_mode_eq_walk cw e kind ho, hw]
  rfl

/-- C3: every successful `ps__get_process_data` call returns a buffer of
exactly `size + 2` bytes for the resolved length `size`: the first `size`
bytes are exactly the bytes read from the remote source address and the
final two bytes are the zeroes left by the zero-initialising allocation. -/
theorem c3_buffer_shape (cw : Bool) (e : GPDEnv) (kind : PDataKind)
    (buf : List Nat) (sz : Nat)
    (h : (ps__get_process_data cw e kind).output = some (buf, sz)) :
    buf.length = sz + 2 ∧ buf.drop sz = [0, 0] ∧
    ∃ src, buf.take sz = (List.range sz).map (fun i => e.remoteMem (src + i)) := by
  obtain ⟨ho, m, src, size0, hw, hr, ha, hf, hbuf, hmode⟩ :=
    gpd_success_inv cw e kind buf sz h
  subst hbuf
  refine ⟨by simp, List.drop_left' (by simp), src, List.take_left' (by simp)⟩

/-- Concrete evaluation of C3: the 4-byte command line at address 100 comes
back as a 6-byte buffer with two trailing zeroes. -/
theorem c3_buffer_shape_witness :
    ([100, 101, 102, 103, 0, 0] : List Nat).length = 4 + 2 ∧
    ([100, 101, 102, 103, 0, 0] : List Nat).drop 4 = [0, 0] ∧
    ∃ src, ([100, 101, 102, 103, 0, 0] : List Nat).take 4 =
      (List.range 4).map (fun i => testEnv.remoteMem (src + i)) :=
  c3_buffer_shape true testEnv PDataKind.cmdline [100, 101, 102, 103, 0, 0] 4
    (by decide)

/-- Helper: a successful structure walk returns exactly the descriptor that
the per-kind `switch` selects from the entered branch's parameters block,
and the wide-target branch is entered exactly for a narrow caller running
under WoW64 with a non-WoW64 target. -/
theorem gpdWalk_descr (cw : Bool) (e : GPDEnv) (kind : PDataKind)
    (m : BitnessMode) (src size0 : Nat)
    (h : gpdWalk cw e kind = some (m, some (src, size0))) :
    (src, size0) = gpdKindDescr (paramsFor e m) kind ∧
    (m = BitnessMode.TargetWiderThanCaller ↔
      cw = false ∧ e.weAreWow64 = true ∧ e.theyAreWow64 = false) := by
  unfold gpdWalk gpdNativeWalk at h
  cases cw <;> repeat' split at h
  all_goals try contradiction
  all_goals (
    injection h with h1
    obtain ⟨hm, hd⟩ := Prod.ext_iff.mp h1
    dsimp only at hm hd
    first
    | exact Option.noConfusion hd
    | (subst hm
       injection hd with hd2
       refine ⟨hd2.symm, ?_⟩))
  all_goals (cases hwe : e.weAreWow64 <;> cases hth : e.theyAreWow64 <;> simp_all)

/-- Helper: on any successful call the probe flag records exactly whether
the requested kind was the environment. -/
theorem gpd_probed_eq (cw : Bool) (e : GPDEnv) (kind : PDataKind)
    (buf : List Nat) (sz : Nat)
    (h : (ps__get_process_data cw e kind).output = some (buf, sz)) :
    (ps__get_process_data cw e kind).regionProbed = (kind == PDataKind.environ) := by
  unfold ps__get_process_data at h ⊢
  by_cases ho : e.openHandle
  case neg =>
    simp only [Bool.not_eq_true] at ho
    simp [ho] at h
  simp only [ho, Bool.not_true, Bool.false_eq_true, if_false] at h ⊢
  rcases hw : gpdWalk cw e kind with _ | ⟨m, _ | ⟨src, size0⟩⟩
  · rw [hw] at h
    simp [gpdError] at h
  · rw [hw] at h
    simp [gpdError] at h
  · rw [hw] at h
    dsimp only at h ⊢
    rcases hr : gpdResolveSize cw e kind src size0 with _ | size
    · rw [hr] at h
      simp [gpdError] at h
    · rw [hr] at h
      dsimp only at h ⊢
      by_cases ha : e.allocOk
      · by_cases hf : e.finalReadOk <;> simp [gpdError, ha, hf]
      · simp [gpdError, ha] at h

/-- C4: on every successful call, the memory-region probe runs exactly for
the environment kind; the resolved environment length is the region's
committed size minus the offset of the environment start address from the
region base (using the WoW64-on-64 region query exactly in the
`TargetWiderThanCaller` mode); command-line and working-directory lengths
are taken from the parameters block as is. -/
theorem c4_environ_region_size (cw : Bool) (e : GPDEnv) (kind : PDataKind)
    (buf : List Nat) (sz : Nat)
    (h : (ps__get_process_data cw e kind).output = some (buf, sz)) :
    (ps__get_process_data cw e kind).regionProbed = (kind == PDataKind.environ) ∧
    ∃ m, (ps__get_process_data cw e kind).mode = some m ∧
      (kind = PDataKind.cmdline → sz = (paramsFor e m).commandLine.len) ∧
      (kind = PDataKind.cwd → sz = (paramsFor e m).currentDirectoryPath.len) ∧
      (kind = PDataKind.environ →
        if m = BitnessMode.TargetWiderThanCaller then
          sz = e.regionSize64 - ((paramsFor e m).envAddr - e.regionBase64)
        else
          sz = e.regionSize - ((paramsFor e m).envAddr - e.regionBase)) := by
  obtain ⟨ho, m, src, size0, hw, hr, ha, hf, hbuf, hmode⟩ :=
    gpd_success_inv cw e kind buf sz h
  obtain ⟨hdescr, hiff⟩ := gpdWalk_descr cw e kind m src size0 hw
  refine ⟨gpd_probed_eq cw e kind buf sz h, m, hmode, ?_, ?_, ?_⟩
  · rintro rfl
    have hlen : size0 = (paramsFor e m).commandLine.len := congrArg Prod.snd hdescr
    simp only [gpdResolveSize] at hr
    rw [if_neg (by decide)] at hr
    injection hr with hr2
    omega
  · rintro rfl
    have hlen : size0 = (paramsFor e m).currentDirectoryPath.len :=
      congrArg Prod.snd hdescr
    simp only [gpdResolveSize] at hr
    rw [if_neg (by decide)] at hr
    injection hr with hr2
    omega
  · rintro rfl
    have hsrc : src = (paramsFor e m).envAddr := congrArg Prod.fst hdescr
    simp only [gpdResolveSize] at hr
    rw [if_pos (by decide)] at hr
    by_cases hc : (!cw && (e.weAreWow64 && !e.theyAreWow64)) = true
    · rw [if_pos hc] at hr
      have hm : m = BitnessMode.TargetWiderThanCaller := by
        apply hiff.mpr
        simpa [Bool.and_eq_true, Bool.not_eq_true'] using hc
      unfold ps__get_process_region_size64 at hr
      by_cases h1 : e.ntQVM64Available
      case neg => simp [h1] at hr
      by_cases h2 : e.vq64Ok
      case neg => simp [h1, h2] at hr
      rw [if_neg (by simp [h1]), if_neg (by simp [h2])] at hr
      injection hr with hr2
      rw [if_pos hm, ← hr2, hsrc]
    · rw [if_neg hc] at hr
      have hm : ¬m = BitnessMode.TargetWiderThanCaller := by
        intro hmm
        apply hc
        have hx := hiff.mp hmm
        simp [Bool.and_eq_true, Bool.not_eq_true', hx.1, hx.2.1, hx.2.2]
      unfold ps__get_process_region_size at hr
      by_cases h1 : e.vqOk
      case neg => simp [h1] at hr
      rw [if_neg (by simp [h1])] at hr
      injection hr with hr2
      rw [if_neg hm, ← hr2, hsrc]

/-- Concrete evaluation of C4: a successful environment fetch through the
wide-caller path resolves its length via the probed region (64 - (300 -
256) = 20 bytes). -/
theorem c4_environ_region_size_witness :
    (ps__get_process_data true testEnv PDataKind.environ).regionProbed =
      (PDataKind.environ == PDataKind.environ) ∧
    ∃ m, (ps__get_process_data true testEnv PDataKind.environ).mode = some m ∧
      (PDataKind.environ = PDataKind.cmdline →
        20 = (paramsFor testEnv m).commandLine.len) ∧
      (PDataKind.environ = PDataKind.cwd →
        20 = (paramsFor testEnv m).currentDirectoryPath.len) ∧
      (PDataKind.environ = PDataKind.environ →
        if m = BitnessMode.TargetWiderThanCaller then
          20 = testEnv.regionSize64 -
            ((paramsFor testEnv m).envAddr - testEnv.regionBase64)
        else
          20 = testEnv.regionSize -
            ((paramsFor testEnv m).envAddr - testEnv.regionBase)) :=
  c4_environ_region_size true testEnv PDataKind.environ
    ((List.range 20).map (fun i => (300 + i) % 256) ++ [0, 0]) 20 (by decide)

/-- Helper: with allocation and enumeration succeeding, the grow-and-retry
loop of `ps__get_pids` exits at the first capacity strictly above the live
count and reports exactly the live count. -/
theorem get_pids_go_exact (env : PidsEnv)
    (hall : ∀ c, env.allocOk c = true) (henum : ∀ c, env.enumOk c = true) :
    ∀ fuel sz, sz + 1024 * fuel ≤ env.trueCount →
      env.trueCount < sz + 1024 * (fuel + 1) →
      ps__get_pids_go env (fuel + 1) sz =
        some (sz + 1024 * (fuel + 1), env.trueCount) := by
  intro fuel
  induction fuel with
  | zero =>
    intro sz h1 h2
    unfold ps__get_pids_go
    dsimp only
    rw [hall, henum]
    simp only [Bool.not_true, Bool.false_eq_true, if_false]
    have hmin : min env.trueCount (sz + 1024) = env.trueCount :=
      Nat.min_eq_left (by omega)
    have hne : ¬(enumReturnBytes env.trueCount (sz + 1024) = (sz + 1024) * 4) := by
      simp only [enumReturnBytes, hmin]
      omega
    rw [if_neg hne]
    have h44 : enumReturnBytes env.trueCount (sz + 1024) / 4 = env.trueCount := by
      simp only [enumReturnBytes, hmin]
      omega
    rw [h44]
  | succ f ih =>
    intro sz h1 h2
    unfold ps__get_pids_go
    dsimp only
    rw [hall, henum]
    simp only [Bool.not_true, Bool.false_eq_true, if_false]
    have hmin : min env.trueCount (sz + 1024) = sz + 1024 :=
      Nat.min_eq_right (by omega)
    have hcond : enumReturnBytes env.trueCount (sz + 1024) = (sz + 1024) * 4 := by
      simp only [enumReturnBytes, hmin]
      omega
    rw [if_pos hcond]
    rw [ih (sz + 1024) (by omega) (by omega)]
    have harith : sz + 1024 + 1024 * (f + 1) = sz + 1024 * (f + 1 + 1) := by ring
    rw [harith]

/-- C5: against a simulated `EnumProcesses` that reports a full buffer
exactly when the live count reaches the capacity, the grow-by-1024 retry
loop of `ps__get_pids` terminates within `trueCount / 1024 + 1` iterations,
its final capacity is the first multiple of 1024 strictly above the live
count, and the reported count (returned byte size divided by the 4-byte
slot size) equals the live count, strictly below the capacity. -/
theorem c5_pid_growth_loop (env : PidsEnv)
    (hall : ∀ c, env.allocOk c = true) (henum : ∀ c, env.enumOk c = true) :
    ps__get_pids env =
      some (1024 * (env.trueCount / 1024 + 1), env.trueCount) ∧
    env.trueCount < 1024 * (env.trueCount / 1024 + 1) := by
  constructor
  · unfold ps__get_pids
    have hx := get_pids_go_exact env hall henum (env.trueCount / 1024) 0
      (by omega) (by omega)
    simpa using hx
  · omega

/-- A `ps__get_pids` oracle with 1500 live identifiers and no failures. -/
def pidsEnvT : PidsEnv :=
  { trueCount := 1500, allocOk := fun _ => true, enumOk := fun _ => true }

/-- Concrete evaluation of C5: 1500 live identifiers need two iterations
and come back complete with capacity 2048. -/
theorem c5_pid_growth_loop_witness :
    ps__get_pids pidsEnvT =
      some (1024 * (pidsEnvT.trueCount / 1024 + 1), pidsEnvT.trueCount) ∧
    pidsEnvT.trueCount < 1024 * (pidsEnvT.trueCount / 1024 + 1) :=
  c5_pid_growth_loop pidsEnvT (fun _ => rfl) (fun _ => rfl)

/-- Helper: walking a well-formed chain, with fuel equal to its length,
returns a matching position exactly when one exists among the chain's
records. -/
theorem find_in_snapshot_spec (buf : Nat → SPRecord) (pid : Nat) :
    ∀ ps : List Nat, isChain buf ps = true → ∀ start, ps.head? = some start →
      ((∃ p ∈ ps, (buf p).uniqueProcessId = pid) →
        ∃ p ∈ ps, (buf p).uniqueProcessId = pid ∧
          ps__find_in_snapshot buf pid ps.length start = some p) ∧
      ((∀ p ∈ ps, (buf p).uniqueProcessId ≠ pid) →
        ps__find_in_snapshot buf pid ps.length start = none) := by
  intro ps
  induction ps with
  | nil =>
    intro hch _ _
    simp [isChain] at hch
  | cons p rest ih =>
    intro hch start hstart
    rw [List.head?_cons] at hstart
    obtain rfl : p = start := Option.some.inj hstart
    cases rest with
    | nil =>
      simp only [isChain, beq_iff_eq] at hch
      by_cases hp : (buf p).uniqueProcessId = pid
      · constructor
        · intro _
          refine ⟨p, by simp, hp, ?_⟩
          simp only [List.length_cons, List.length_nil, ps__find_in_snapshot,
            if_pos hp]
        · intro hall
          exact absurd hp (hall p (by simp))
      · constructor
        · rintro ⟨q, hq, hqpid⟩
          simp only [List.mem_singleton] at hq
          subst hq
          exact absurd hqpid hp
        · intro _
          simp only [List.length_cons, List.length_nil, ps__find_in_snapshot,
            if_neg hp, if_pos hch]
    | cons q rest' =>
      simp only [isChain, Bool.and_eq_true, bne_iff_ne, beq_iff_eq] at hch
      obtain ⟨⟨hne0, hq⟩, hch'⟩ := hch
      obtain ⟨ihA, ihB⟩ := ih hch' q rfl
      by_cases hp : (buf p).uniqueProcessId = pid
      · constructor
        · intro _
          refine ⟨p, by simp, hp, ?_⟩
          simp only [List.length_cons, ps__find_in_snapshot, if_pos hp]
        · intro hall
          exact absurd hp (hall p (by simp))
      · have hstep :
            ps__find_in_snapshot buf pid (p :: q :: rest').length p =
              ps__find_in_snapshot buf pid (q :: rest').length q := by
          simp only [List.length_cons, ps__find_in_snapshot, if_neg hp,
            if_neg hne0]
          rw [← hq]
        constructor
        · rintro ⟨r, hr, hrpid⟩
          rw [List.mem_cons] at hr
          rcases hr with rfl | hr
          · exact absurd hrpid hp
          · obtain ⟨r2, hr2, hpid2, hfind⟩ := ihA ⟨r, hr, hrpid⟩
            refine ⟨r2, List.mem_cons_of_mem p hr2, hpid2, ?_⟩
            rw [hstep]
            exact hfind
        · intro hall
          rw [hstep]
          exact ihB (fun r hr => hall r (List.mem_cons_of_mem p hr))

/-- C7: for a snapshot buffer holding a well-formed record chain starting at
offset 0, the scan of `ps__get_proc_info` returns 1 together with a matching
record and the un-freed buffer whenever some chain record carries the target
pid, and reports `NoSuchProcess`, frees the buffer and returns 0 when no
chain record matches. -/
theorem c7_snapshot_chain_scan (buf : Nat → SPRecord) (pid : Nat)
    (ps : List Nat) (hchain : isChain buf ps = true)
    (hstart : ps.head? = some 0) :
    ((∃ p ∈ ps, (buf p).uniqueProcessId = pid) →
      ∃ p ∈ ps, (buf p).uniqueProcessId = pid ∧
        ps__get_proc_info buf pid ps.length =
          { ret := 1, retProcess := some p, bufferFreed := false,
            errorSet := none }) ∧
    ((∀ p ∈ ps, (buf p).uniqueProcessId ≠ pid) →
      ps__get_proc_info buf pid ps.length =
        { ret := 0, retProcess := none, bufferFreed := true,
          errorSet := some PsErr.NoSuchProcess }) := by
  obtain ⟨hA, hB⟩ := find_in_snapshot_spec buf pid ps hchain 0 hstart
  constructor
  · intro hex
    obtain ⟨p, hp, hpid, hfind⟩ := hA hex
    refine ⟨p, hp, hpid, ?_⟩
    unfold ps__get_proc_info
    rw [hfind]
  · intro hall
    unfold ps__get_proc_info
    rw [hB hall]

/-- A three-record snapshot buffer: records at byte offsets 0, 16 and 40
with pids 7, 42 and 9; the record at 40 terminates the chain. -/
def buf7 : Nat → SPRecord := fun pos =>
  if pos = 0 then ⟨16, 7⟩
  else if pos = 16 then ⟨24, 42⟩
  else if pos = 40 then ⟨0, 9⟩
  else ⟨0, 0⟩

/-- Concrete evaluation of C7: pid 42 planted at chain position 1 is found
at byte offset 16 with the buffer handed to the caller. -/
theorem c7_snapshot_chain_scan_witness :
    ps__get_proc_info buf7 42 3 =
      { ret := 1, retProcess := some 16, bufferFreed := false,
        errorSet := none } := by
  obtain ⟨p, hp, hpid, heq⟩ :=
    (c7_snapshot_chain_scan buf7 42 [0, 16, 40] (by decide) rfl).1
      ⟨16, by decide, by decide⟩
  fin_cases hp
  · exact absurd hpid (by decide)
  · exact heq
  · exact absurd hpid (by decide)

/-- C8 counterexample: with the target's current-directory text `C:\`, the
bytes copied out of the parameters structure end in the separator 92, yet
`ps__get_cwd` returns the text `C:` with the trailing separator removed —
the accessor does pre-trim one trailing path separator. -/
theorem c8_cwd_untrimmed_counterexample :
    (ps__get_process_data true cwdEnv PDataKind.cwd).output =
      some ([67, 0, 58, 0, 92, 0, 0, 0], 6) ∧
    (wcslenTake (bytesToWChars [67, 0, 58, 0, 92, 0, 0, 0])).getLast? = some 92 ∧
    ps__get_cwd true cwdEnv = some [67, 58] ∧
    92 ∉ ((ps__get_cwd true cwdEnv).getD []) := by
  refine ⟨by decide, by decide, by decide, by decide⟩

/-- C8 amended: `ps__get_cwd` returns the `wcslen` prefix of the copied
working-directory text with one trailing path separator trimmed: when that
prefix ends in a backslash, the returned text is the prefix without its
last character; otherwise it is the prefix unchanged. -/
theorem c8_cwd_trailing_separator_trimmed (cw : Bool) (e : GPDEnv)
    (buf : List Nat) (sz : Nat)
    (h : (ps__get_process_data cw e PDataKind.cwd).output = some (buf, sz)) :
    ps__get_cwd cw e =
      some (if (wcslenTake (bytesToWChars buf)).getLast? = some 92
            then (wcslenTake (bytesToWChars buf)).dropLast
            else wcslenTake (bytesToWChars buf)) := by
  unfold ps__get_cwd
  rw [h]
  dsimp only [ps__cwd_trim]

/-- Concrete evaluation of the amended C8 at the `C:\` working directory. -/
theorem c8_cwd_trailing_separator_trimmed_witness :
    ps__get_cwd true cwdEnv =
      some (if (wcslenTake (bytesToWChars [67, 0, 58, 0, 92, 0, 0, 0])).getLast?
              = some 92
            then (wcslenTake (bytesToWChars [67, 0, 58, 0, 92, 0, 0, 0])).dropLast
            else wcslenTake (bytesToWChars [67, 0, 58, 0, 92, 0, 0, 0])) :=
  c8_cwd_trailing_separator_trimmed true cwdEnv [67, 0, 58, 0, 92, 0, 0, 0] 6
    (by decide)

/-- C9 counterexample: the trim is not idempotent on the wide string of two
backslashes: the first application leaves a single backslash, which the
second application removes as well. -/
theorem c9_trim_not_idempotent_counterexample :
    ps__cwd_trim [92, 92] = [92] ∧
    ps__cwd_trim (ps__cwd_trim [92, 92]) = [] ∧
    ps__cwd_trim (ps__cwd_trim [92, 92]) ≠ ps__cwd_trim [92, 92] := by
  refine ⟨by decide, by decide, by decide⟩

/-- C9 amended: the trim is idempotent on every wide string that does not
end in two consecutive path separators (if the last character is a
backslash, the one before it is not). -/
theorem c9_trim_idempotent_amended (x : List Nat)
    (h : x.getLast? = some 92 → x.dropLast.getLast? ≠ some 92) :
    ps__cwd_trim (ps__cwd_trim x) = ps__cwd_trim x := by
  unfold ps__cwd_trim
  by_cases hx : x.getLast? = some 92
  · rw [if_pos hx, if_neg (h hx)]
  · rw [if_neg hx, if_neg hx]

/-- Concrete evaluation of the amended C9 on the wide string `C\`. -/
theorem c9_trim_idempotent_amended_witness :
    ps__cwd_trim (ps__cwd_trim [67, 92]) = ps__cwd_trim [67, 92] :=
  c9_trim_idempotent_amended [67, 92] (by decide)

/-- C10: when the exit-code query succeeds with a non-sentinel value, a
failing pid-registry membership test (`ps__pid_in_pids` result -1) is
treated exactly like a definite non-membership: the handle is closed and the
process is reported not running (return 0, mapped by `ps__check_phandle` to
`NoSuchProcess`, not to a platform error); only a membership result of
exactly 1 reports running, with the handle kept open and returned. -/
theorem c10_membership_error_treated_as_gone (hnd : Nat) (env : GuardEnv)
    (hok : env.getExitCodeOk = true) (hexit : env.exitCode ≠ STILL_ACTIVE) :
    (env.pidInPids = -1 →
      ps__is_phandle_running (some hnd) env = { ret := 0, handleClosed := true } ∧
      (ps__check_phandle (some hnd) env).errorSet = some PsErr.NoSuchProcess ∧
      (ps__check_phandle (some hnd) env).handle = none) ∧
    (env.pidInPids = 0 →
      ps__is_phandle_running (some hnd) env = { ret := 0, handleClosed := true }) ∧
    ((ps__is_phandle_running (some hnd) env).ret = 1 ↔ env.pidInPids = 1) ∧
    (env.pidInPids = 1 →
      (ps__is_phandle_running (some hnd) env).handleClosed = false ∧
      (ps__check_phandle (some hnd) env).handle = some hnd) := by
  have hrun : ps__is_phandle_running (some hnd) env =
      (if env.pidInPids = 1 then { ret := 1, handleClosed := false }
       else { ret := 0, handleClosed := true }) := by
    unfold ps__is_phandle_running
    dsimp only
    rw [if_pos hok, if_neg hexit]
  have hcheck : ps__check_phandle (some hnd) env =
      (if env.pidInPids = 1 then
        { handle := some hnd, errorSet := none, handleClosed := false }
       else
        { handle := none, errorSet := some .NoSuchProcess,
          handleClosed := true }) := by
    unfold ps__check_phandle
    dsimp only
    rw [hrun]
    by_cases hpid : env.pidInPids = 1
    · rw [if_pos hpid, if_pos hpid]
      simp
    · rw [if_neg hpid, if_neg hpid]
      simp
  refine ⟨?_, ?_, ⟨?_, ?_⟩, ?_⟩
  · intro hm
    have hne : ¬env.pidInPids = 1 := by omega
    exact ⟨by rw [hrun, if_neg hne], by rw [hcheck, if_neg hne],
      by rw [hcheck, if_neg hne]⟩
  · intro hm
    have hne : ¬env.pidInPids = 1 := by omega
    rw [hrun, if_neg hne]
  · intro h1
    by_cases hpid : env.pidInPids = 1
    · exact hpid
    · rw [hrun, if_neg hpid] at h1
      simp at h1
  · intro hpid
    rw [hrun, if_pos hpid]
  · intro hpid
    exact ⟨by rw [hrun, if_pos hpid], by rw [hcheck, if_pos hpid]⟩

/-- A guard oracle whose exit-code query yields a non-sentinel value and
whose pid-registry lookup fails. -/
def guardEnvT : GuardEnv :=
  { openResult := some 5, lastErrorInvalidParam := false, getExitCodeOk := true,
    exitCode := 0, pidInPids := -1, testingMode := false }

/-- Concrete evaluation of C10 at a failing registry lookup. -/
theorem c10_membership_error_treated_as_gone_witness :
    (guardEnvT.pidInPids = -1 →
      ps__is_phandle_running (some 5) guardEnvT =
        { ret := 0, handleClosed := true } ∧
      (ps__check_phandle (some 5) guardEnvT).errorSet =
        some PsErr.NoSuchProcess ∧
      (ps__check_phandle (some 5) guardEnvT).handle = none) ∧
    (guardEnvT.pidInPids = 0 →
      ps__is_phandle_running (some 5) guardEnvT =
        { ret := 0, handleClosed := true }) ∧
    ((ps__is_phandle_running (some 5) guardEnvT).ret = 1 ↔
      guardEnvT.pidInPids = 1) ∧
    (guardEnvT.pidInPids = 1 →
      (ps__is_phandle_running (some 5) guardEnvT).handleClosed = false ∧
      (ps__check_phandle (some 5) guardEnvT).handle = some 5) :=
  c10_membership_error_treated_as_gone 5 guardEnvT rfl (by decide)

/-- Concrete evaluation of C6 at access mask 3. -/
theorem c6_pid_zero_access_denied_witness :
    (ps__handle_from_pid_waccess 0 3 guardEnvT).errorSet =
      some PsErr.AccessDenied ∧
    (ps__handle_from_pid_waccess 0 3 guardEnvT).handle = none ∧
    (ps__handle_from_pid_waccess 0 3 guardEnvT).openAttempted = false ∧
    (ps__handle_from_pid_waccess 0 3 guardEnvT).errorSet ≠
      some PsErr.NoSuchProcess :=
  c6_pid_zero_access_denied 3 guardEnvT
